import Mathlib

/-!
Verification of the call-analytics synchronization core.

Shallow embedding of the resilient request client, the transcript
ingestion pipeline, the trend aggregators and the metrics stabilization
layer of the `cursor-sentiment-analytics` repository, together with
proofs and refutations of the specified properties.

The embedding follows the TypeScript source:
* the global fetch wrapper installed on the supabase client
  (`src/integrations/supabase/client.ts`, reproduced inside
  `src/services/events/EventsService.ts`),
* `DatabaseService.saveTranscriptToDatabase`, `updateCallsTable`,
  `updateSentimentTrends`, `updateKeywordTrends`,
  `calculateAudioDuration`,
* the `useRealTimeTeamMetrics` stabilization hook
  (the `100 - Math.round(agent)` variant).

Effects are made explicit: the database is a pair of row lists passed
through the pipeline, `Math.random()` draws and generated UUIDs are
parameters, fallible collaborators return `Except`, and the network is a
function from attempt index to outcome.
-/

namespace CallAnalytics

/-! ## Resilient request client: the global fetch wrapper

The wrapper (EventsService.ts lines 882-1009) loops `while (retryCount <
maxRetries)` around `fetch`.  Each attempt either returns an `ok`
response, returns a non-ok HTTP response, or throws a network error.
A non-ok response whose body contains `"invalid input syntax for type
uuid"` makes the wrapper `throw` — but that throw happens inside the
loop's own `try`, so the surrounding `catch` treats it like a network
error and retries it with exponential backoff.  A 429 response sleeps
`2000 * (retryCount + 1)` ms and retries.  Any other non-ok response is
returned to the caller at once.  A thrown network error sleeps
`min(1000 * 2^retryCount, 10000)` ms and retries.  When the loop
exhausts its three attempts the wrapper increments the module-level
`connectionAttempts` counter and, once that counter has reached
`MAX_CONNECTION_ATTEMPTS = 5`, raises the actionable `CONNECTION_FAILED`
condition (again on every later exhausted call). -/

/-- What one `fetch` attempt does: succeed, deliver a non-ok HTTP
response with a status code and a flag for whether the body contains the
`invalid input syntax for type uuid` marker, or throw a network-level
error (timeout, connection refused, ...). -/
inductive Outcome where
  | ok : Outcome
  | httpErr (status : Nat) (uuidErr : Bool) : Outcome
  | netErr : Outcome
deriving DecidableEq, Repr

/-- Terminal result of one wrapped call. -/
inductive FetchResult where
  | success : FetchResult
  | errorResponse (status : Nat) (uuidErr : Bool) : FetchResult
  | thrown : FetchResult
deriving DecidableEq, Repr

/-- The `maxRetries` bound of the wrapper's inner loop. -/
def maxRetries : Nat := 3

/-- The `MAX_CONNECTION_ATTEMPTS` threshold for the cumulative counter. -/
def MAX_CONNECTION_ATTEMPTS : Nat := 5

/-- Exponential backoff delay (ms) slept after a thrown attempt:
`Math.min(1000 * Math.pow(2, retryCount), 10000)`. -/
def backoffDelay (retryCount : Nat) : Nat :=
  min (1000 * 2 ^ retryCount) 10000

/-- Delay (ms) slept after a 429 response: `2000 * (retryCount + 1)`. -/
def rateLimitDelay (retryCount : Nat) : Nat :=
  2000 * (retryCount + 1)

/-- Trace of one wrapped call: its terminal result, the number of
`fetch` attempts actually performed, and the list of sleeps (ms) in
order. -/
structure CallTrace where
  result : FetchResult
  attempts : Nat
  delays : List Nat
deriving DecidableEq, Repr

/-- One step of bookkeeping: a failed attempt that will be retried
prepends its sleep to the rest of the trace. -/
def CallTrace.retryAfter (d : Nat) (t : CallTrace) : CallTrace :=
  { result := t.result, attempts := t.attempts + 1, delays := d :: t.delays }

/-- The wrapper's `while (retryCount < maxRetries)` loop, as a function
of the environment `outcomes` (what the network does on each attempt
index).  The first argument is the number of loop iterations still
allowed, `maxRetries - retryCount`, so the recursion is structural.
Mirrors EventsService.ts lines 897-971: `ok` returns; a non-ok
response first checks the uuid marker (throw, hence caught and retried
with backoff), then status 429 (rate-limit sleep and retry), and
otherwise is returned to the caller; a thrown attempt sleeps the
exponential backoff and retries; an exhausted loop ends in `thrown`. -/
def runRetryLoop (outcomes : Nat → Outcome) : Nat → Nat → CallTrace
  | 0, _ => { result := .thrown, attempts := 0, delays := [] }
  | remaining + 1, retryCount =>
    match outcomes retryCount with
    | .ok => { result := .success, attempts := 1, delays := [] }
    | .httpErr status uuidErr =>
      if uuidErr then
        (runRetryLoop outcomes remaining (retryCount + 1)).retryAfter (backoffDelay retryCount)
      else if status == 429 then
        (runRetryLoop outcomes remaining (retryCount + 1)).retryAfter (rateLimitDelay retryCount)
      else
        { result := .errorResponse status uuidErr, attempts := 1, delays := [] }
    | .netErr =>
      (runRetryLoop outcomes remaining (retryCount + 1)).retryAfter (backoffDelay retryCount)

/-- One whole wrapped call starts the loop at `retryCount = 0` with all
`maxRetries` iterations available. -/
def wrappedCall (outcomes : Nat → Outcome) : CallTrace :=
  runRetryLoop outcomes maxRetries 0

/-- Module-level connection bookkeeping shared by all wrapped calls:
`isSupabaseConnected` and `connectionAttempts`
(EventsService.ts lines 868-870). -/
structure ConnState where
  isSupabaseConnected : Bool
  connectionAttempts : Nat
deriving DecidableEq, Repr

/-- Initial module state: `isSupabaseConnected = false`,
`connectionAttempts = 0`. -/
def ConnState.init : ConnState := { isSupabaseConnected := false, connectionAttempts := 0 }

/-- Effect of one completed wrapped call on the shared state, and the
number of `CONNECTION_FAILED` raises it performs.  A successful call
sets the connected flag and resets the counter (lines 904-909).  An
exhausted call increments `connectionAttempts` and raises
`CONNECTION_FAILED` when the counter has reached the threshold (lines
973-989); the connected flag was cleared by the attempt-level catch.  A
non-ok response returned to the caller touches neither the counter nor
the flag. -/
def stepCall (s : ConnState) (t : CallTrace) : ConnState × Nat :=
  match t.result with
  | .success =>
    ({ isSupabaseConnected := true, connectionAttempts := 0 }, 0)
  | .errorResponse _ _ => (s, 0)
  | .thrown =>
    let attempts' := s.connectionAttempts + 1
    ({ isSupabaseConnected := false, connectionAttempts := attempts' },
      if MAX_CONNECTION_ATTEMPTS ≤ attempts' then 1 else 0)

/-- Run a sequence of wrapped calls against the shared state,
accumulating the total number of `CONNECTION_FAILED` raises. -/
def runCalls (s : ConnState) : List (Nat → Outcome) → ConnState × Nat
  | [] => (s, 0)
  | c :: cs =>
    let (s', r) := stepCall s (wrappedCall c)
    let (s'', rs) := runCalls s' cs
    (s'', r + rs)

/-- The manual-retry hook installed on the `CONNECTION_FAILED`
condition resets the cumulative counter to `0` (line 985). -/
def manualRetryReset (s : ConnState) : ConnState :=
  { s with connectionAttempts := 0 }

/-! ## Ingestion pipeline: `DatabaseService.saveTranscriptToDatabase`

EventsService.ts lines 245-581.  The database is modelled as explicit
row lists; `Math.random()`, `uuidv4()`, the auth lookup, timestamps and
the success/failure of each store write are parameters of the run. -/

/-- Sentiment label produced by the analysis collaborator. -/
inductive Sentiment where
  | positive | neutral | negative
deriving DecidableEq, Repr

/-- JavaScript `Math.round`: round halves toward `+∞`, which for any
real argument is `⌊x + 1/2⌋`. -/
def jsRound (x : ℚ) : ℤ := ⌊x + 1 / 2⌋

/-- Whether the pattern is a prefix of the character list. -/
def hasPrefixChars : List Char → List Char → Bool
  | [], _ => true
  | _ :: _, [] => false
  | a :: as, b :: bs => a = b && hasPrefixChars as bs

/-- Whether the pattern occurs somewhere inside the character list. -/
def includesChars (pat : List Char) : List Char → Bool
  | [] => hasPrefixChars pat []
  | c :: rest => hasPrefixChars pat (c :: rest) || includesChars pat rest

/-- JavaScript `s.includes(pat)`. -/
def stringIncludes (s pat : String) : Bool :=
  includesChars pat.data s.data

/-- The schema-fallback trigger of line 334: whether the insert error
message includes the substring `key_phrases` or the substring
`column`. -/
def errMentionsColumn (msg : String) : Bool :=
  stringIncludes msg "key_phrases" || stringIncludes msg "column"

/-- Analysis collaborator (`transcriptAnalysisService`): black-box
derivations that may throw, modelled with `Except`. -/
structure Analyzers where
  analyzeSentiment : String → Except String Sentiment
  extractKeywords : String → Except String (List String)
  generateCallScore : String → Sentiment → Except String Nat
  splitBySpeaker : String → Nat → Except String (List String)

/-- Row of the `call_transcripts` detail table.  The `keywords` and
`key_phrases` fields are `Option` so the schema-fallback path can omit
a column that the probe said does not exist. -/
structure TranscriptRow where
  id : String
  user_id : String
  filename : String
  text : String
  duration : ℤ
  call_score : Nat
  sentiment : Sentiment
  keywords : Option (List String)
  key_phrases : Option (List String)
  transcript_segments : Option (List String)
  created_at : String
deriving DecidableEq, Repr

/-- Row of the `calls` summary table. -/
structure CallRow where
  id : String
  user_id : String
  duration : ℤ
  sentiment_agent : ℚ
  sentiment_customer : ℚ
  talk_ratio_agent : ℚ
  talk_ratio_customer : ℚ
  key_phrases : List String
  filename : String
  created_at : String
deriving DecidableEq, Repr

/-- Row of the append-only `sentiment_trends` table. -/
structure SentimentTrendRow where
  sentiment_label : Sentiment
  confidence : ℚ
  user_id : Option String
  recorded_at : String
deriving DecidableEq, Repr

/-- The two tables the ingestion pipeline writes. -/
structure DB where
  call_transcripts : List TranscriptRow
  calls : List CallRow
deriving DecidableEq, Repr

/-- Empty store. -/
def DB.empty : DB := { call_transcripts := [], calls := [] }

/-- Store-side `upsert(..., { onConflict: key })`: replace the rows
whose key matches, or append when none does. -/
def upsertBy {α : Type} (key : α → String) (rows : List α) (r : α) : List α :=
  if rows.any (fun x => key x == key r) then
    rows.map (fun x => if key x == key r then r else x)
  else
    rows ++ [r]

/-- Duration computation of lines 557-578: the metadata duration
rounded when it loads; otherwise the estimate
`Math.round(audioFile.size / 32000)`, replaced by `60` when that
estimate is not positive. -/
def calculateAudioDuration (metadataDuration : Option ℚ) (fileSize : Nat) : ℤ :=
  match metadataDuration with
  | some d => jsRound d
  | none =>
    let estimatedSeconds := jsRound ((fileSize : ℚ) / 32000)
    if 0 < estimatedSeconds then estimatedSeconds else 60

/-- JavaScript truthiness of an optional string: `null`/`undefined` and
`""` are falsy. -/
def falsyStr : Option String → Bool
  | none => true
  | some s => s == ""

/-- Owner resolution of lines 275-280: explicit `userId`, else
`user?.id || generateAnonymousUserId()`. -/
def resolveUserId (userId authUserId : Option String) (anonId : String) : String :=
  if falsyStr userId then
    if falsyStr authUserId then anonId else authUserId.getD anonId
  else userId.getD anonId

/-- Agent sentiment score of line 373: 0.8 when the label is positive,
0.3 when negative, 0.5 otherwise. -/
def agentSentimentScore : Sentiment → ℚ
  | .positive => 0.8
  | .negative => 0.3
  | .neutral => 0.5

/-- Customer sentiment score of line 374: 0.7 when the label is
positive, 0.2 when negative, 0.5 otherwise. -/
def customerSentimentScore : Sentiment → ℚ
  | .positive => 0.7
  | .negative => 0.2
  | .neutral => 0.5

/-- Agent talk ratio of line 375, the draw made explicit:
`50 + (Math.random() * 20 - 10)`. -/
def talkRatioAgent (r1 : ℚ) : ℚ := 50 + (r1 * 20 - 10)

/-- Customer talk ratio of line 376, a second, independent draw:
`50 - (Math.random() * 20 - 10)`. -/
def talkRatioCustomer (r2 : ℚ) : ℚ := 50 - (r2 * 20 - 10)

/-- Environment of one `saveTranscriptToDatabase` run: everything the
function reads from the outside world — auth, generated identifiers,
the clock, audio metadata, the two `Math.random()` draws, and whether
each store write succeeds. -/
structure SaveEnv where
  authUserId : Option String
  anonId : String
  transcriptId : String
  timestamp : String
  metadataDuration : Option ℚ
  r1 : ℚ
  r2 : ℚ
  firstUpsertError : Option String
  hasKeywordsCol : Bool
  hasKeyPhrasesCol : Bool
  secondUpsertError : Option String
  callsWriteFails : Bool

/-- Arguments of one `saveTranscriptToDatabase` call. -/
structure SaveInput where
  text : String
  filename : String
  fileSize : Nat
  userId : Option String
  numSpeakers : Nat

/-- The `{ id, error }` result of the pipeline. -/
structure SaveResult where
  id : String
  error : Option String
deriving DecidableEq, Repr

/-- The `transcriptData` object prepared at lines 303-315: keyed by the
generated `transcriptId`, with the keyword list stored in both the
`keywords` and the `key_phrases` field. -/
def mkTranscriptRow (env : SaveEnv) (inp : SaveInput) (sentiment : Sentiment)
    (keywords : List String) (callScore : Nat) (segments : Option (List String)) :
    TranscriptRow :=
  { id := env.transcriptId
    user_id := resolveUserId inp.userId env.authUserId env.anonId
    filename := inp.filename
    text := inp.text
    duration := calculateAudioDuration env.metadataDuration inp.fileSize
    call_score := callScore
    sentiment := sentiment
    keywords := some keywords
    key_phrases := some keywords
    transcript_segments := segments
    created_at := env.timestamp }

/-- The `calls` payload of lines 369-380: same id and timestamp as the
detail row, fixed sentiment-score mapping, and talk ratios from two
independent `Math.random()` draws (`duration || 0` equals `duration`
since the duration is already numeric). -/
def mkCallRow (env : SaveEnv) (inp : SaveInput) (sentiment : Sentiment)
    (keywords : List String) : CallRow :=
  { id := env.transcriptId
    user_id := resolveUserId inp.userId env.authUserId env.anonId
    duration := calculateAudioDuration env.metadataDuration inp.fileSize
    sentiment_agent := agentSentimentScore sentiment
    sentiment_customer := customerSentimentScore sentiment
    talk_ratio_agent := talkRatioAgent env.r1
    talk_ratio_customer := talkRatioCustomer env.r2
    key_phrases := keywords
    filename := inp.filename
    created_at := env.timestamp }

/-- Tail of the pipeline after a successful detail write (lines
364-387): attempt the `calls` summary upsert inside its own
`try`/`catch`, so its failure leaves the store untouched and never
changes the returned result. -/
def saveCallsSideEffect (env : SaveEnv) (row : CallRow) (db : DB) : DB × SaveResult :=
  let db2 :=
    if env.callsWriteFails then db
    else { db with calls := upsertBy CallRow.id db.calls row }
  (db2, { id := env.transcriptId, error := none })

/-- The pipeline `DatabaseService.saveTranscriptToDatabase`
(lines 247-393).  The
whole body sits in one `try`: an exception from any derivation step
reaches the outer `catch` and returns an empty id with the error, with no write
performed.  On the happy path the detail row is upserted on `id`; a
first-write error mentioning `key_phrases`/`column` triggers the
column-probe fallback and a second upsert with the probed field set;
any other first-write error (or a failing second write) is returned
with the generated id.  The summary write is then attempted as a
non-critical side effect. -/
def saveTranscriptToDatabase (a : Analyzers) (env : SaveEnv) (inp : SaveInput)
    (db : DB) : DB × SaveResult :=
  match (if 1 < inp.numSpeakers then
          (a.splitBySpeaker inp.text inp.numSpeakers).map some
         else .ok none) with
  | .error e => (db, { id := "", error := some e })
  | .ok segments =>
  match a.analyzeSentiment inp.text with
  | .error e => (db, { id := "", error := some e })
  | .ok sentiment =>
  match a.extractKeywords inp.text with
  | .error e => (db, { id := "", error := some e })
  | .ok keywords =>
  match a.generateCallScore inp.text sentiment with
  | .error e => (db, { id := "", error := some e })
  | .ok callScore =>
    let transcriptData := mkTranscriptRow env inp sentiment keywords callScore segments
    let callRow := mkCallRow env inp sentiment keywords
    match env.firstUpsertError with
    | none =>
      saveCallsSideEffect env callRow
        { db with call_transcripts := upsertBy TranscriptRow.id db.call_transcripts transcriptData }
    | some insertError =>
      if errMentionsColumn insertError then
        let updatedData : TranscriptRow :=
          { transcriptData with
            keywords := if env.hasKeywordsCol then some keywords else none
            key_phrases := if env.hasKeyPhrasesCol then some keywords else none }
        match env.secondUpsertError with
        | some secondError => (db, { id := env.transcriptId, error := some secondError })
        | none =>
          saveCallsSideEffect env callRow
            { db with call_transcripts := upsertBy TranscriptRow.id db.call_transcripts updatedData }
      else
        (db, { id := env.transcriptId, error := some insertError })

/-- The fixed confidence mapping of line 537: 0.8 when the label is
positive, 0.7 when negative, 0.6 otherwise. -/
def sentimentConfidence : Sentiment → ℚ
  | .positive => 0.8
  | .negative => 0.7
  | .neutral => 0.6

/-- The aggregator `DatabaseService.updateSentimentTrends`
(lines 528-555).  The
sentiment derivation happens before the `try`, so its exception
propagates; the insert itself is guarded, so an insert failure leaves
the log unchanged and is swallowed.  A successful insert appends
exactly one row. -/
def updateSentimentTrends (a : Analyzers) (text : String) (userId : Option String)
    (ts : String) (insertFails : Bool) (trends : List SentimentTrendRow) :
    Except String (List SentimentTrendRow) :=
  match a.analyzeSentiment text with
  | .error e => .error e
  | .ok sentiment =>
    let trendData : SentimentTrendRow :=
      { sentiment_label := sentiment
        confidence := sentimentConfidence sentiment
        user_id := userId
        recorded_at := ts }
    if insertFails then .ok trends else .ok (trends ++ [trendData])

/-! ## Metrics stabilization: `useRealTimeTeamMetrics`

The stabilization hook of EventsService.ts lines 747-777 (the variant
that recomputes the customer ratio as `100 - Math.round(agent)`). -/

/-- Raw team metrics snapshot delivered by `useSharedTeamMetrics`. -/
structure TeamMetrics where
  performanceScore : ℚ
  totalCalls : Nat
  conversionRate : ℚ
  avgSentiment : ℚ
  agentTalkRatio : ℚ
  customerTalkRatio : ℚ
deriving DecidableEq, Repr

/-- The `stableMetrics` memo of lines 752-777: a missing snapshot
becomes the zero/50-50 default; otherwise the score is rounded, the
rate rounded to one decimal, the agent ratio rounded and the customer
ratio recomputed as its complement to 100. -/
def stabilizeTeamMetrics : Option TeamMetrics → TeamMetrics
  | none =>
    { performanceScore := 0, totalCalls := 0, conversionRate := 0
      avgSentiment := 0, agentTalkRatio := 50, customerTalkRatio := 50 }
  | some m =>
    { m with
      performanceScore := (jsRound m.performanceScore : ℚ)
      conversionRate := (jsRound (m.conversionRate * 10) : ℚ) / 10
      agentTalkRatio := (jsRound m.agentTalkRatio : ℚ)
      customerTalkRatio := 100 - (jsRound m.agentTalkRatio : ℚ) }

/-! ## Concrete fixtures

Closed instantiations used by witnesses and counterexamples. -/

/-- Analysis collaborator in which every derivation succeeds. -/
def okAnalyzers : Analyzers :=
  { analyzeSentiment := fun _ => .ok .neutral
    extractKeywords := fun _ => .ok ["pricing"]
    generateCallScore := fun _ _ => .ok 75
    splitBySpeaker := fun _ _ => .ok [] }

/-- Analysis collaborator whose sentiment classifier throws. -/
def throwingAnalyzers : Analyzers :=
  { okAnalyzers with analyzeSentiment := fun _ => .error "sentiment classifier crashed" }

/-- Analysis collaborator classifying every transcript as negative. -/
def negativeAnalyzers : Analyzers :=
  { okAnalyzers with analyzeSentiment := fun _ => .ok .negative }

/-- Analysis collaborator whose keyword extractor throws. -/
def keywordThrowingAnalyzers : Analyzers :=
  { okAnalyzers with extractKeywords := fun _ => .error "keyword extractor crashed" }

/-- Analysis collaborator whose call scorer throws. -/
def scoreThrowingAnalyzers : Analyzers :=
  { okAnalyzers with generateCallScore := fun _ _ => .error "call scorer crashed" }

/-- Analysis collaborator whose speaker splitter throws. -/
def splitThrowingAnalyzers : Analyzers :=
  { okAnalyzers with splitBySpeaker := fun _ _ => .error "speaker splitter crashed" }

/-- A happy-path environment: every store write succeeds, audio
metadata fails to load, and the two random draws differ (first 1/2,
second 0). -/
def sampleEnv : SaveEnv :=
  { authUserId := none
    anonId := "anonymous-1234"
    transcriptId := "3f2504e0-4f89-11d3-9a0c-0305e82c3301"
    timestamp := "2026-10-11T00:00:00Z"
    metadataDuration := none
    r1 := 1 / 2
    r2 := 0
    firstUpsertError := none
    hasKeywordsCol := true
    hasKeyPhrasesCol := true
    secondUpsertError := none
    callsWriteFails := false }

/-- A small single-speaker ingestion input. -/
def sampleInput : SaveInput :=
  { text := "hello world"
    filename := "call.wav"
    fileSize := 320000
    userId := none
    numSpeakers := 1 }

/-- The same input with two speakers, so the speaker-split derivation
runs. -/
def multiSpeakerInput : SaveInput :=
  { sampleInput with numSpeakers := 2 }

/-! ## Helper lemmas -/

/-- Upserting a row always leaves that row in the table. -/
theorem self_mem_upsertBy {α : Type} (key : α → String) (rows : List α) (r : α) :
    r ∈ upsertBy key rows r := by
  unfold upsertBy
  by_cases h : rows.any (fun x => key x == key r) = true
  · rcases List.any_eq_true.mp h with ⟨x, hx, hkey⟩
    simp only [h, if_true]
    exact List.mem_map.mpr ⟨x, hx, by simp [hkey]⟩
  · simp [h]

/-- After an upsert, a table that held at most one row with the upserted
key holds exactly one. -/
theorem countP_upsertBy {α : Type} (key : α → String) (rows : List α) (r : α) (k : String)
    (hk : key r = k)
    (h : rows.countP (fun x => key x == k) ≤ 1) :
    (upsertBy key rows r).countP (fun x => key x == k) = 1 := by
  subst hk
  unfold upsertBy
  by_cases hany : rows.any (fun x => key x == key r) = true
  · simp only [hany, if_true]
    rw [List.countP_map]
    have hcong : rows.countP ((fun x => key x == key r) ∘ fun x => if key x == key r then r else x)
        = rows.countP (fun x => key x == key r) := by
      apply List.countP_congr
      intro a _
      by_cases hk : key a = key r
      · simp [hk]
      · simp [hk]
    rw [hcong]
    have hpos : 0 < rows.countP (fun x => key x == key r) := by
      rcases List.any_eq_true.mp hany with ⟨x, hx, hkey⟩
      exact List.countP_pos_iff.mpr ⟨x, hx, hkey⟩
    omega
  · rw [Bool.not_eq_true] at hany
    rw [hany]
    simp only [Bool.false_eq_true, if_false, List.countP_append]
    have hzero : rows.countP (fun x => key x == key r) = 0 := by
      rw [List.countP_eq_zero]
      intro a ha
      by_contra hcon
      rw [← Bool.not_eq_true, List.any_eq_true] at hany
      exact hany ⟨a, ha, by simpa using hcon⟩
    simp [hzero]

/-- The summary side effect never touches the detail table. -/
theorem saveCallsSideEffect_transcripts (env : SaveEnv) (row : CallRow) (db : DB) :
    (saveCallsSideEffect env row db).1.call_transcripts = db.call_transcripts := by
  unfold saveCallsSideEffect
  by_cases h : env.callsWriteFails = true <;> simp [h]

/-- The summary side effect always reports the generated identifier and
no error, whether or not its write succeeded. -/
theorem saveCallsSideEffect_result (env : SaveEnv) (row : CallRow) (db : DB) :
    (saveCallsSideEffect env row db).2 = { id := env.transcriptId, error := none } := rfl

/-- When the summary write succeeds it upserts the summary row on its
id. -/
theorem saveCallsSideEffect_calls (env : SaveEnv) (row : CallRow) (db : DB)
    (h : env.callsWriteFails = false) :
    (saveCallsSideEffect env row db).1.calls = upsertBy CallRow.id db.calls row := by
  unfold saveCallsSideEffect
  rw [h]
  simp

/-- Reduction of the pipeline on the happy path: all derivations
succeed and the first detail upsert succeeds. -/
theorem saveTranscript_success (a : Analyzers) (env : SaveEnv) (inp : SaveInput) (db : DB)
    (s : Sentiment) (kw : List String) (sc : Nat) (segs : Option (List String))
    (hsegs : (if 1 < inp.numSpeakers then (a.splitBySpeaker inp.text inp.numSpeakers).map some
              else .ok none) = Except.ok segs)
    (hsent : a.analyzeSentiment inp.text = .ok s)
    (hkw : a.extractKeywords inp.text = .ok kw)
    (hsc : a.generateCallScore inp.text s = .ok sc)
    (hfirst : env.firstUpsertError = none) :
    saveTranscriptToDatabase a env inp db =
      saveCallsSideEffect env (mkCallRow env inp s kw)
        { db with call_transcripts :=
            upsertBy TranscriptRow.id db.call_transcripts (mkTranscriptRow env inp s kw sc segs) } := by
  unfold saveTranscriptToDatabase
  simp only [hsegs, hsent, hkw, hsc, hfirst]

/-- A call whose every attempt throws network errors is retried to the
full budget with the exponential backoff delays. -/
theorem runRetryLoop_all_netErr (outcomes : Nat → Outcome)
    (h : ∀ i, i < maxRetries → outcomes i = .netErr) :
    wrappedCall outcomes = { result := .thrown, attempts := 3, delays := [1000, 2000, 4000] } := by
  have h0 := h 0 (by decide)
  have h1 := h 1 (by decide)
  have h2 := h 2 (by decide)
  show runRetryLoop outcomes 3 0 = _
  rw [show (3 : Nat) = 2 + 1 from rfl, runRetryLoop, h0,
      show (2 : Nat) = 1 + 1 from rfl, runRetryLoop, h1,
      show (1 : Nat) = 0 + 1 from rfl, runRetryLoop, h2, runRetryLoop]
  rfl

/-- A call whose every attempt is rate-limited is retried to the full
budget with the `2000 * (attemptNumber)` delays. -/
theorem runRetryLoop_all_rateLimit (outcomes : Nat → Outcome)
    (h : ∀ i, i < maxRetries → outcomes i = .httpErr 429 false) :
    wrappedCall outcomes = { result := .thrown, attempts := 3, delays := [2000, 4000, 6000] } := by
  have h0 := h 0 (by decide)
  have h1 := h 1 (by decide)
  have h2 := h 2 (by decide)
  show runRetryLoop outcomes 3 0 = _
  rw [show (3 : Nat) = 2 + 1 from rfl, runRetryLoop, h0,
      show (2 : Nat) = 1 + 1 from rfl, runRetryLoop, h1,
      show (1 : Nat) = 0 + 1 from rfl, runRetryLoop, h2, runRetryLoop]
  rfl

/-- One exhausted wrapped call, evaluated. -/
theorem wrappedCall_netErr :
    wrappedCall (fun _ => Outcome.netErr) =
      { result := .thrown, attempts := 3, delays := [1000, 2000, 4000] } := by decide

/-- Closed form of the shared connection bookkeeping over a run of `n`
consecutive exhausted calls: the counter grows without bound and the
`CONNECTION_FAILED` raise fires on every exhausted call from the
threshold on. -/
theorem runCalls_netErr (b : Bool) (c n : Nat) :
    runCalls ⟨b, c⟩ (List.replicate n (fun _ => Outcome.netErr)) =
      (⟨if n = 0 then b else false, c + n⟩,
        (c + n) - max c (MAX_CONNECTION_ATTEMPTS - 1)) := by
  induction n generalizing b c with
  | zero =>
    simp [runCalls, MAX_CONNECTION_ATTEMPTS]
  | succ n ih =>
    rw [List.replicate_succ]
    simp only [runCalls, wrappedCall_netErr, stepCall]
    rw [ih]
    simp only [MAX_CONNECTION_ATTEMPTS, Prod.mk.injEq, ConnState.mk.injEq]
    refine ⟨⟨by simp, by omega⟩, ?_⟩
    by_cases hc : 5 ≤ c + 1
    · simp only [hc, if_true]
      omega
    · simp only [hc, if_false]
      omega

/-! ## Claims -/

/-- C1, counterexample.  The claim says every CallSummaryRecord written
by the ingestion pipeline has agent plus customer talk ratio exactly
100.  It is false: lines 375-376 draw the two ratios from two
independent `Math.random()` calls.  Running the real pipeline on an
empty store with first draw 1/2 and second draw 0 writes exactly one
summary row, whose ratios sum to 110. -/
theorem talk_ratio_sum_counterexample :
    ((saveTranscriptToDatabase okAnalyzers sampleEnv sampleInput DB.empty).1.calls.map
      (fun row => row.talk_ratio_agent + row.talk_ratio_customer)) = [110] ∧
    (110 : ℚ) ≠ 100 := by
  constructor
  · rw [saveTranscript_success okAnalyzers sampleEnv sampleInput DB.empty
      .neutral ["pricing"] 75 none rfl rfl rfl rfl rfl]
    norm_num [saveCallsSideEffect, sampleEnv, mkCallRow, upsertBy, DB.empty,
      talkRatioAgent, talkRatioCustomer]
  · norm_num

/-- C1, amended.  Every MetricsSnapshot produced by the stabilization
layer has agent plus customer talk ratio exactly 100, the customer
ratio being 100 minus the rounded agent ratio; but the summary records
written by the ingestion pipeline carry two independently drawn ratios
whose sum is `100 + 20 * (r1 - r2)`, which equals 100 only when the two
draws coincide. -/
theorem talk_ratio_sum_amended :
    (∀ om : Option TeamMetrics,
      (stabilizeTeamMetrics om).agentTalkRatio + (stabilizeTeamMetrics om).customerTalkRatio
        = 100) ∧
    (∀ r1 r2 : ℚ, talkRatioAgent r1 + talkRatioCustomer r2 = 100 + 20 * (r1 - r2)) ∧
    (∀ r1 r2 : ℚ, talkRatioAgent r1 + talkRatioCustomer r2 = 100 ↔ r1 = r2) := by
  refine ⟨?_, ?_, ?_⟩
  · rintro (_ | m)
    · norm_num [stabilizeTeamMetrics]
    · simp only [stabilizeTeamMetrics]
      ring
  · intro r1 r2
    simp only [talkRatioAgent, talkRatioCustomer]
    ring
  · intro r1 r2
    simp only [talkRatioAgent, talkRatioCustomer]
    constructor
    · intro h
      linarith
    · intro h
      rw [h]
      ring

/-- C1, witness for the amended theorem at concrete inputs. -/
theorem talk_ratio_sum_amended_witness :
    (stabilizeTeamMetrics none).agentTalkRatio + (stabilizeTeamMetrics none).customerTalkRatio
      = 100 ∧
    talkRatioAgent (1 / 2) + talkRatioCustomer (1 / 2) = 100 :=
  ⟨talk_ratio_sum_amended.1 none, (talk_ratio_sum_amended.2.2 (1 / 2) (1 / 2)).mpr rfl⟩

/-- C2, counterexample.  The claim says a derivation exception is
caught, defaults are substituted, a skeleton record is still saved and
a non-empty identifier is returned.  It is false: the derivations run
inside the same `try` as the writes (lines 261-268), so a throwing
sentiment classifier reaches the outer `catch` (lines 388-392), which
returns an empty identifier with the error — and the store is left
untouched, no skeleton record exists. -/
theorem derivation_exception_counterexample :
    (saveTranscriptToDatabase throwingAnalyzers sampleEnv sampleInput DB.empty).2.id = "" ∧
    (saveTranscriptToDatabase throwingAnalyzers sampleEnv sampleInput DB.empty).1 = DB.empty := by
  constructor <;> rfl

/-- C2, amended.  An exception in any derivation step — speaker split,
sentiment classification, keyword extraction or call scoring — is
caught by the pipeline's outer handler and returned as the error, but
persistence is aborted: the store is unchanged and the returned
identifier is empty.  The four conjuncts follow the code's evaluation
order, each assuming the earlier steps succeeded and the named step
threw. -/
theorem derivation_exception_amended :
    (∀ (a : Analyzers) (env : SaveEnv) (inp : SaveInput) (db : DB) (e : String),
      1 < inp.numSpeakers →
      a.splitBySpeaker inp.text inp.numSpeakers = .error e →
      saveTranscriptToDatabase a env inp db = (db, { id := "", error := some e })) ∧
    (∀ (a : Analyzers) (env : SaveEnv) (inp : SaveInput) (db : DB)
        (segs : Option (List String)) (e : String),
      (if 1 < inp.numSpeakers then (a.splitBySpeaker inp.text inp.numSpeakers).map some
       else .ok none) = Except.ok segs →
      a.analyzeSentiment inp.text = .error e →
      saveTranscriptToDatabase a env inp db = (db, { id := "", error := some e })) ∧
    (∀ (a : Analyzers) (env : SaveEnv) (inp : SaveInput) (db : DB)
        (segs : Option (List String)) (s : Sentiment) (e : String),
      (if 1 < inp.numSpeakers then (a.splitBySpeaker inp.text inp.numSpeakers).map some
       else .ok none) = Except.ok segs →
      a.analyzeSentiment inp.text = .ok s →
      a.extractKeywords inp.text = .error e →
      saveTranscriptToDatabase a env inp db = (db, { id := "", error := some e })) ∧
    (∀ (a : Analyzers) (env : SaveEnv) (inp : SaveInput) (db : DB)
        (segs : Option (List String)) (s : Sentiment) (kw : List String) (e : String),
      (if 1 < inp.numSpeakers then (a.splitBySpeaker inp.text inp.numSpeakers).map some
       else .ok none) = Except.ok segs →
      a.analyzeSentiment inp.text = .ok s →
      a.extractKeywords inp.text = .ok kw →
      a.generateCallScore inp.text s = .error e →
      saveTranscriptToDatabase a env inp db = (db, { id := "", error := some e })) := by
  refine ⟨?_, ?_, ?_, ?_⟩
  · intro a env inp db e hn hsplit
    unfold saveTranscriptToDatabase
    rw [if_pos hn, hsplit]
    rfl
  · intro a env inp db segs e hsegs hsent
    unfold saveTranscriptToDatabase
    simp only [hsegs, hsent]
  · intro a env inp db segs s e hsegs hsent hkw
    unfold saveTranscriptToDatabase
    simp only [hsegs, hsent, hkw]
  · intro a env inp db segs s kw e hsegs hsent hkw hsc
    unfold saveTranscriptToDatabase
    simp only [hsegs, hsent, hkw, hsc]

/-- C2, witness for the amended theorem: one concrete throwing
collaborator per derivation step, each aborting with an empty id and an
untouched store. -/
theorem derivation_exception_amended_witness :
    saveTranscriptToDatabase splitThrowingAnalyzers sampleEnv multiSpeakerInput DB.empty =
      (DB.empty, { id := "", error := some "speaker splitter crashed" }) ∧
    saveTranscriptToDatabase throwingAnalyzers sampleEnv sampleInput DB.empty =
      (DB.empty, { id := "", error := some "sentiment classifier crashed" }) ∧
    saveTranscriptToDatabase keywordThrowingAnalyzers sampleEnv sampleInput DB.empty =
      (DB.empty, { id := "", error := some "keyword extractor crashed" }) ∧
    saveTranscriptToDatabase scoreThrowingAnalyzers sampleEnv sampleInput DB.empty =
      (DB.empty, { id := "", error := some "call scorer crashed" }) :=
  ⟨derivation_exception_amended.1 splitThrowingAnalyzers sampleEnv multiSpeakerInput
      DB.empty "speaker splitter crashed" (by decide) rfl,
   derivation_exception_amended.2.1 throwingAnalyzers sampleEnv sampleInput DB.empty
      none "sentiment classifier crashed" rfl rfl,
   derivation_exception_amended.2.2.1 keywordThrowingAnalyzers sampleEnv sampleInput
      DB.empty none .neutral "keyword extractor crashed" rfl rfl rfl,
   derivation_exception_amended.2.2.2 scoreThrowingAnalyzers sampleEnv sampleInput
      DB.empty none .neutral ["pricing"] "call scorer crashed" rfl rfl rfl rfl⟩

/-- C3, counterexample.  The claim says every transiently classified
failure (timeout, 5xx, rate-limit) is attempted up to 3 times with
strictly increasing delays.  It is false for 5xx: a call whose every
attempt returns status 500 performs exactly one `fetch` — the non-ok
response is returned to the caller at line 954 without any retry or
delay. -/
theorem transient_5xx_counterexample :
    (wrappedCall (fun _ => Outcome.httpErr 500 false)).attempts = 1 ∧
    (wrappedCall (fun _ => Outcome.httpErr 500 false)).result
      = .errorResponse 500 false ∧
    (wrappedCall (fun _ => Outcome.httpErr 500 false)).delays = [] := by decide

/-- C3, amended.  Network-level failures (timeouts, connection errors)
and 429 rate-limit responses are retried up to 3 attempts with strictly
increasing delays: exponential backoff 1s, 2s, 4s (each within the 10s
cap) for network errors, and 2s times the attempt number for
rate-limited responses.  A 5xx response is returned to the caller after
a single attempt. -/
theorem transient_retry_amended :
    (∀ outcomes : Nat → Outcome, (∀ i, i < maxRetries → outcomes i = .netErr) →
      wrappedCall outcomes =
        { result := .thrown, attempts := 3, delays := [1000, 2000, 4000] }) ∧
    (∀ outcomes : Nat → Outcome, (∀ i, i < maxRetries → outcomes i = .httpErr 429 false) →
      wrappedCall outcomes =
        { result := .thrown, attempts := 3, delays := [2000, 4000, 6000] }) ∧
    List.Chain' (· < ·) [1000, 2000, 4000] ∧
    List.Chain' (· < ·) [2000, 4000, 6000] ∧
    (∀ rc, rc < maxRetries → backoffDelay rc = 1000 * 2 ^ rc ∧ backoffDelay rc ≤ 10000) ∧
    (∀ rc, rateLimitDelay rc = 2000 * (rc + 1)) := by
  refine ⟨runRetryLoop_all_netErr, runRetryLoop_all_rateLimit,
    by norm_num [List.chain'_cons], by norm_num [List.chain'_cons],
    ?_, fun rc => rfl⟩
  intro rc hrc
  unfold maxRetries at hrc
  interval_cases rc <;> exact ⟨by decide, by decide⟩

/-- C3, witness for the amended theorem on the two uniform failure
runs. -/
theorem transient_retry_amended_witness :
    wrappedCall (fun _ => Outcome.netErr) =
      { result := .thrown, attempts := 3, delays := [1000, 2000, 4000] } ∧
    wrappedCall (fun _ => Outcome.httpErr 429 false) =
      { result := .thrown, attempts := 3, delays := [2000, 4000, 6000] } :=
  ⟨transient_retry_amended.1 (fun _ => .netErr) (fun _ _ => rfl),
   transient_retry_amended.2.1 (fun _ => .httpErr 429 false) (fun _ _ => rfl)⟩

/-- C4, counterexample.  The claim says the connection-failed condition
is raised exactly once and a further failing call is not additionally
counted.  It is false: after 6 consecutive exhausted calls the counter
stands at 6 (the 6th call was counted past the threshold) and the
`CONNECTION_FAILED` condition has been raised twice — lines 974-989
increment and re-raise on every exhausted call once the counter is at
least 5. -/
theorem connection_threshold_counterexample :
    (runCalls .init (List.replicate 6 (fun _ => Outcome.netErr))).1.connectionAttempts = 6 ∧
    (runCalls .init (List.replicate 6 (fun _ => Outcome.netErr))).2 = 2 := by decide

/-- C4, amended.  The client tracks a cumulative failure counter across
calls; every call that exhausts its retries increments it, the
connection-failed condition is raised on the call that reaches the
threshold of 5 and again on every further exhausted call
(`n - 4` raises after `n ≥ 5` exhausted calls), and the manual-retry
hook resets the counter to 0. -/
theorem connection_threshold_amended (n : Nat) :
    (runCalls .init (List.replicate n (fun _ => Outcome.netErr))).1.connectionAttempts = n ∧
    (runCalls .init (List.replicate n (fun _ => Outcome.netErr))).2
      = n - (MAX_CONNECTION_ATTEMPTS - 1) ∧
    (manualRetryReset
      (runCalls .init (List.replicate n (fun _ => Outcome.netErr))).1).connectionAttempts
      = 0 := by
  rw [show ConnState.init = (⟨false, 0⟩ : ConnState) from rfl, runCalls_netErr]
  simp [MAX_CONNECTION_ATTEMPTS, manualRetryReset]

/-- C4, witness for the amended theorem at 6 exhausted calls. -/
theorem connection_threshold_amended_witness :
    (runCalls .init (List.replicate 6 (fun _ => Outcome.netErr))).2
      = 6 - (MAX_CONNECTION_ATTEMPTS - 1) :=
  (connection_threshold_amended 6).2.1

/-- C5.  The claim (and the comment at line 925 of the source: UUID
errors must not be retried) says a malformed-identifier response is
attempted at most once and fails immediately.  The code does the
opposite: the `throw` at line 926 sits inside the retry loop's own
`try`, so its `catch` (line 956) treats the UUID error like a network
failure and retries it — a call whose every response carries the
invalid-uuid marker performs all 3 attempts with backoff delays before
failing. -/
theorem uuid_error_retried :
    (wrappedCall (fun _ => Outcome.httpErr 400 true)).attempts = 3 ∧
    (wrappedCall (fun _ => Outcome.httpErr 400 true)).result = .thrown ∧
    (wrappedCall (fun _ => Outcome.httpErr 400 true)).delays = [1000, 2000, 4000] := by decide

/-- C6.  On a successful ingestion the pipeline returns the single
generated identifier, reports no error, the identifier is non-empty
(the uuid generator never returns an empty string), and both the detail
row and the summary row carry exactly that identifier, so the two
records are correlated. -/
theorem single_identifier_correlates_records (a : Analyzers) (env : SaveEnv)
    (inp : SaveInput) (db : DB) (s : Sentiment) (kw : List String) (sc : Nat)
    (segs : Option (List String))
    (hsegs : (if 1 < inp.numSpeakers then (a.splitBySpeaker inp.text inp.numSpeakers).map some
              else .ok none) = Except.ok segs)
    (hsent : a.analyzeSentiment inp.text = .ok s)
    (hkw : a.extractKeywords inp.text = .ok kw)
    (hsc : a.generateCallScore inp.text s = .ok sc)
    (hfirst : env.firstUpsertError = none)
    (hcalls : env.callsWriteFails = false)
    (hid : env.transcriptId ≠ "") :
    (saveTranscriptToDatabase a env inp db).2.id = env.transcriptId ∧
    (saveTranscriptToDatabase a env inp db).2.error = none ∧
    (saveTranscriptToDatabase a env inp db).2.id ≠ "" ∧
    (∃ trow ∈ (saveTranscriptToDatabase a env inp db).1.call_transcripts,
      trow.id = env.transcriptId) ∧
    (∃ crow ∈ (saveTranscriptToDatabase a env inp db).1.calls,
      crow.id = env.transcriptId) := by
  rw [saveTranscript_success a env inp db s kw sc segs hsegs hsent hkw hsc hfirst]
  refine ⟨?_, ?_, ?_, ?_, ?_⟩
  · rw [saveCallsSideEffect_result]
  · rw [saveCallsSideEffect_result]
  · rw [saveCallsSideEffect_result]
    exact hid
  · rw [saveCallsSideEffect_transcripts]
    exact ⟨mkTranscriptRow env inp s kw sc segs,
      self_mem_upsertBy TranscriptRow.id db.call_transcripts _, rfl⟩
  · rw [saveCallsSideEffect_calls _ _ _ hcalls]
    exact ⟨mkCallRow env inp s kw, self_mem_upsertBy CallRow.id db.calls _, rfl⟩

/-- C6, witness at a concrete happy-path run. -/
theorem single_identifier_witness :
    (saveTranscriptToDatabase okAnalyzers sampleEnv sampleInput DB.empty).2.id
      = sampleEnv.transcriptId ∧
    (saveTranscriptToDatabase okAnalyzers sampleEnv sampleInput DB.empty).2.id ≠ "" :=
  ⟨(single_identifier_correlates_records okAnalyzers sampleEnv sampleInput DB.empty
      .neutral ["pricing"] 75 none rfl rfl rfl rfl rfl rfl (by decide)).1,
   (single_identifier_correlates_records okAnalyzers sampleEnv sampleInput DB.empty
      .neutral ["pricing"] 75 none rfl rfl rfl rfl rfl rfl (by decide)).2.2.1⟩

/-- C7.  The detail write is an upsert keyed on the generated
identifier: ingesting the same transcription result with the same
pre-assigned identifier once, and then a second time, leaves exactly
one detail row with that identifier (assuming the table held at most
one such row to begin with). -/
theorem upsert_idempotent_detail_write (a : Analyzers) (env : SaveEnv)
    (inp : SaveInput) (db : DB) (s : Sentiment) (kw : List String) (sc : Nat)
    (segs : Option (List String))
    (hsegs : (if 1 < inp.numSpeakers then (a.splitBySpeaker inp.text inp.numSpeakers).map some
              else .ok none) = Except.ok segs)
    (hsent : a.analyzeSentiment inp.text = .ok s)
    (hkw : a.extractKeywords inp.text = .ok kw)
    (hsc : a.generateCallScore inp.text s = .ok sc)
    (hfirst : env.firstUpsertError = none)
    (hcount : db.call_transcripts.countP (fun x => x.id == env.transcriptId) ≤ 1) :
    ((saveTranscriptToDatabase a env inp db).1.call_transcripts.countP
        (fun x => x.id == env.transcriptId)) = 1 ∧
    ((saveTranscriptToDatabase a env inp
        (saveTranscriptToDatabase a env inp db).1).1.call_transcripts.countP
      (fun x => x.id == env.transcriptId)) = 1 := by
  have e1 : (saveTranscriptToDatabase a env inp db).1.call_transcripts
      = upsertBy TranscriptRow.id db.call_transcripts (mkTranscriptRow env inp s kw sc segs) := by
    rw [saveTranscript_success a env inp db s kw sc segs hsegs hsent hkw hsc hfirst,
      saveCallsSideEffect_transcripts]
  have hc1 : (saveTranscriptToDatabase a env inp db).1.call_transcripts.countP
      (fun x => x.id == env.transcriptId) = 1 := by
    rw [e1]
    exact countP_upsertBy TranscriptRow.id db.call_transcripts _ env.transcriptId rfl hcount
  have e2 : (saveTranscriptToDatabase a env inp
        (saveTranscriptToDatabase a env inp db).1).1.call_transcripts
      = upsertBy TranscriptRow.id (saveTranscriptToDatabase a env inp db).1.call_transcripts
          (mkTranscriptRow env inp s kw sc segs) := by
    rw [saveTranscript_success a env inp (saveTranscriptToDatabase a env inp db).1
        s kw sc segs hsegs hsent hkw hsc hfirst,
      saveCallsSideEffect_transcripts]
  refine ⟨hc1, ?_⟩
  rw [e2]
  exact countP_upsertBy TranscriptRow.id _ _ env.transcriptId rfl (le_of_eq hc1)

/-- C7, witness: the double ingestion from the empty store. -/
theorem upsert_idempotent_witness :
    ((saveTranscriptToDatabase okAnalyzers sampleEnv sampleInput
        (saveTranscriptToDatabase okAnalyzers sampleEnv sampleInput
          DB.empty).1).1.call_transcripts.countP
      (fun x => x.id == sampleEnv.transcriptId)) = 1 :=
  (upsert_idempotent_detail_write okAnalyzers sampleEnv sampleInput DB.empty
    .neutral ["pricing"] 75 none rfl rfl rfl rfl rfl (by decide)).2

/-- C8.  When audio metadata fails to load the duration is
`Math.round(fileSize / 32000)` whenever that estimate is positive, and
60 seconds otherwise; the estimate is non-positive exactly for files
under 16000 bytes; a 320000-byte file yields exactly 10 seconds. -/
theorem duration_fallback :
    calculateAudioDuration none 320000 = 10 ∧
    (∀ fileSize : Nat, 0 < jsRound ((fileSize : ℚ) / 32000) →
      calculateAudioDuration none fileSize = jsRound ((fileSize : ℚ) / 32000)) ∧
    (∀ fileSize : Nat, jsRound ((fileSize : ℚ) / 32000) ≤ 0 →
      calculateAudioDuration none fileSize = 60) ∧
    (∀ fileSize : Nat, fileSize < 16000 → calculateAudioDuration none fileSize = 60) ∧
    (∀ fileSize : Nat, 16000 ≤ fileSize →
      calculateAudioDuration none fileSize = jsRound ((fileSize : ℚ) / 32000)) := by
  have hpos : ∀ fileSize : Nat, 0 < jsRound ((fileSize : ℚ) / 32000) →
      calculateAudioDuration none fileSize = jsRound ((fileSize : ℚ) / 32000) := by
    intro n h
    simp only [calculateAudioDuration]
    rw [if_pos h]
  have hnonpos : ∀ fileSize : Nat, jsRound ((fileSize : ℚ) / 32000) ≤ 0 →
      calculateAudioDuration none fileSize = 60 := by
    intro n h
    simp only [calculateAudioDuration]
    rw [if_neg (by omega)]
  refine ⟨by norm_num [calculateAudioDuration, jsRound], hpos, hnonpos, ?_, ?_⟩
  · intro n hn
    apply hnonpos
    have h0 : jsRound ((n : ℚ) / 32000) = 0 := by
      rw [jsRound, Int.floor_eq_zero_iff]
      constructor
      · positivity
      · have hq : (n : ℚ) < 16000 := by exact_mod_cast hn
        have hlt : (n : ℚ) / 32000 < 1 / 2 := by
          rw [div_lt_div_iff₀ (by norm_num) (by norm_num)]
          linarith
        linarith
    omega
  · intro n hn
    apply hpos
    have hq : (16000 : ℚ) ≤ (n : ℚ) := by exact_mod_cast hn
    have h1 : (1 : ℚ) ≤ (n : ℚ) / 32000 + 1 / 2 := by
      have hhalf : (1 : ℚ) / 2 ≤ (n : ℚ) / 32000 := by
        rw [div_le_div_iff₀ (by norm_num) (by norm_num)]
        linarith
      linarith
    have h2 : (1 : ℤ) ≤ ⌊(n : ℚ) / 32000 + 1 / 2⌋ := by
      apply Int.le_floor.mpr
      push_cast
      exact h1
    rw [jsRound]
    omega

/-- C8, witness: a file below the threshold falls back to 60 seconds. -/
theorem duration_fallback_witness :
    calculateAudioDuration none 100 = 60 :=
  duration_fallback.2.2.2.1 100 (by norm_num)

/-- C9.  A successful sentiment-trend update appends exactly one
append-only row whose confidence is the fixed label mapping — 0.8 for
positive, 0.7 for negative, 0.6 for neutral; in particular a transcript
classified negative is written with confidence exactly 0.7. -/
theorem sentiment_trend_confidence (a : Analyzers) (text : String)
    (userId : Option String) (ts : String) (trends : List SentimentTrendRow) (s : Sentiment)
    (hsent : a.analyzeSentiment text = .ok s) :
    updateSentimentTrends a text userId ts false trends =
      .ok (trends ++ [{ sentiment_label := s, confidence := sentimentConfidence s,
                        user_id := userId, recorded_at := ts }]) ∧
    sentimentConfidence .positive = 0.8 ∧
    sentimentConfidence .negative = 0.7 ∧
    sentimentConfidence .neutral = 0.6 := by
  refine ⟨?_, rfl, rfl, rfl⟩
  unfold updateSentimentTrends
  simp [hsent]

/-- C9, witness: a negative transcript appends one row with confidence
exactly 0.7. -/
theorem sentiment_trend_confidence_witness :
    updateSentimentTrends negativeAnalyzers "text" none "t1" false [] =
      .ok [{ sentiment_label := .negative, confidence := 0.7, user_id := none,
             recorded_at := "t1" }] := by
  have h := sentiment_trend_confidence negativeAnalyzers "text" none "t1" [] .negative rfl
  simpa [sentimentConfidence] using h.1

/-- C10.  Every summary row written by the pipeline carries sentiment
scores that are the fixed function of the derived label — agent 0.8
when positive, 0.3 when negative, 0.5 otherwise; customer 0.7 when
positive, 0.2 when negative, 0.5 otherwise — and both scores always lie
in the 0-1 range. -/
theorem summary_sentiment_scores (a : Analyzers) (env : SaveEnv)
    (inp : SaveInput) (db : DB) (s : Sentiment) (kw : List String) (sc : Nat)
    (segs : Option (List String))
    (hsegs : (if 1 < inp.numSpeakers then (a.splitBySpeaker inp.text inp.numSpeakers).map some
              else .ok none) = Except.ok segs)
    (hsent : a.analyzeSentiment inp.text = .ok s)
    (hkw : a.extractKeywords inp.text = .ok kw)
    (hsc : a.generateCallScore inp.text s = .ok sc)
    (hfirst : env.firstUpsertError = none)
    (hcalls : env.callsWriteFails = false) :
    (∃ crow ∈ (saveTranscriptToDatabase a env inp db).1.calls,
      crow.id = env.transcriptId ∧
      crow.sentiment_agent = agentSentimentScore s ∧
      crow.sentiment_customer = customerSentimentScore s) ∧
    (∀ t : Sentiment, 0 ≤ agentSentimentScore t ∧ agentSentimentScore t ≤ 1 ∧
      0 ≤ customerSentimentScore t ∧ customerSentimentScore t ≤ 1) ∧
    agentSentimentScore .positive = 0.8 ∧ agentSentimentScore .negative = 0.3 ∧
    agentSentimentScore .neutral = 0.5 ∧
    customerSentimentScore .positive = 0.7 ∧ customerSentimentScore .negative = 0.2 ∧
    customerSentimentScore .neutral = 0.5 := by
  refine ⟨?_, ?_, rfl, rfl, rfl, rfl, rfl, rfl⟩
  · rw [saveTranscript_success a env inp db s kw sc segs hsegs hsent hkw hsc hfirst,
      saveCallsSideEffect_calls _ _ _ hcalls]
    exact ⟨mkCallRow env inp s kw, self_mem_upsertBy CallRow.id db.calls _, rfl, rfl, rfl⟩
  · intro t
    cases t <;> refine ⟨by norm_num [agentSentimentScore], by norm_num [agentSentimentScore],
      by norm_num [customerSentimentScore], by norm_num [customerSentimentScore]⟩

/-- C10, witness at a concrete happy-path run. -/
theorem summary_sentiment_scores_witness :
    ∃ crow ∈ (saveTranscriptToDatabase okAnalyzers sampleEnv sampleInput DB.empty).1.calls,
      crow.id = sampleEnv.transcriptId ∧
      crow.sentiment_agent = agentSentimentScore .neutral ∧
      crow.sentiment_customer = customerSentimentScore .neutral :=
  (summary_sentiment_scores okAnalyzers sampleEnv sampleInput DB.empty
    .neutral ["pricing"] 75 none rfl rfl rfl rfl rfl rfl).1

end CallAnalytics
